import Mathlib

/-!
Verification of the TIPS-Compass core (src/functions/src/index.ts): the
check-in normalizer, the weight-history query, the risk evaluator and the
trigger/orchestrator that writes the per-patient RiskState record.
JavaScript numbers are embedded as rationals (exact arithmetic), JavaScript
runtime values as the inductive `JSVal`, and the document stores as explicit
function-typed states.
-/

namespace TIPS

/-- A JavaScript runtime value as it can appear in a Firestore check-in
record: boolean, number (embedded as a rational), string, or null.
An absent (undefined) field is modelled as `Option.none` at the field. -/
inductive JSVal where
  | vBool (b : Bool)
  | vNum (q : ℚ)
  | vStr (s : String)
  | vNull
deriving DecidableEq, Repr

/-- JavaScript truthiness of a value (`!!v`): false, 0, "" and null are
falsy, everything else truthy. -/
def JSVal.truthy : JSVal → Bool
  | .vBool b => b
  | .vNum q => decide (q ≠ 0)
  | .vStr s => decide (s ≠ "")
  | .vNull => false

/-- Truthiness of a possibly-absent field: `undefined` is falsy. -/
def truthyOpt : Option JSVal → Bool
  | none => false
  | some v => v.truthy

/-- The `??` nullish-coalescing operator on possibly-absent fields:
the right operand is used exactly when the left is undefined or null. -/
def jsCoalesce (a b : Option JSVal) : Option JSVal :=
  match a with
  | none => b
  | some .vNull => b
  | some v => some v

/-- Source type `RiskLevel = "green" | "yellow" | "red"`. -/
inductive RiskLevel where
  | green
  | yellow
  | red
deriving DecidableEq, Repr

/-- The severity rank used by `maxRisk`:
`const rank = { green: 0, yellow: 1, red: 2 }`. -/
def RiskLevel.rank : RiskLevel → Nat
  | .green => 0
  | .yellow => 1
  | .red => 2

/-- Function `maxRisk(a, b)`: `return rank[b] > rank[a] ? b : a`. -/
def maxRisk (a b : RiskLevel) : RiskLevel :=
  if a.rank < b.rank then b else a

/-- The string stored in the `level` field of a RiskState document. -/
def RiskLevel.toStr : RiskLevel → String
  | .green => "green"
  | .yellow => "yellow"
  | .red => "red"

/-- The raw `medsTaken` sub-record of a check-in document; each field may be
absent and may hold any runtime value. -/
structure MedsRaw where
  lactulose : Option JSVal := none
  rifaximin : Option JSVal := none
  diuretics : Option JSVal := none
deriving DecidableEq, Repr

/-- A raw check-in document as read from the store (`type CheckIn`, with
every field optional and, at runtime, of arbitrary type: the TypeScript
annotation is only a cast). `medsTaken` is either absent/null (`none`) or an
object. -/
structure RawCheckIn where
  patientId : Option JSVal := none
  patientID : Option JSVal := none
  date : Option JSVal := none
  confusion : Option JSVal := none
  sleepReversal : Option JSVal := none
  tremor : Option JSVal := none
  bowelMovements : Option JSVal := none
  weightKg : Option JSVal := none
  bleeding : Option JSVal := none
  fever : Option JSVal := none
  medsTaken : Option MedsRaw := none
deriving DecidableEq, Repr

/-- The normalized `medsTaken` record: three concrete booleans. -/
structure Meds where
  lactulose : Bool
  rifaximin : Bool
  diuretics : Bool
deriving DecidableEq, Repr

/-- A normalized check-in, the input type of `evaluateRisk`: every field is
present with a concrete value; `weightKg` is a number or null (`none`). -/
structure NormCheckIn where
  date : JSVal
  confusion : Bool
  sleepReversal : Bool
  tremor : Bool
  bowelMovements : ℚ
  weightKg : Option ℚ
  bleeding : Bool
  fever : Bool
  medsTaken : Meds
deriving DecidableEq, Repr

/-- Coercion `!!raw.medsTaken?.lactulose` etc.: optional chaining on an absent or
null `medsTaken` yields undefined, which `!!` coerces to false. -/
def coerceMeds : Option MedsRaw → Meds
  | none => ⟨false, false, false⟩
  | some m => ⟨truthyOpt m.lactulose, truthyOpt m.rifaximin, truthyOpt m.diuretics⟩

/-- The normalization step of `onCheckInWrite` (the `checkInNormalized`
object literal): booleans via `!!`, `bowelMovements` kept when
`typeof === "number"` else 0, `weightKg` kept when `typeof === "number"`
else null, and the already-guarded `date` passed through unchanged. -/
def checkInNormalized (date : JSVal) (raw : RawCheckIn) : NormCheckIn :=
  { date := date
    confusion := truthyOpt raw.confusion
    sleepReversal := truthyOpt raw.sleepReversal
    tremor := truthyOpt raw.tremor
    bowelMovements :=
      match raw.bowelMovements with
      | some (.vNum q) => q
      | _ => 0
    weightKg :=
      match raw.weightKg with
      | some (.vNum q) => some q
      | _ => none
    bleeding := truthyOpt raw.bleeding
    fever := truthyOpt raw.fever
    medsTaken := coerceMeds raw.medsTaken }

/-- A `{date, weightKg}` projection of a check-in used for trend
comparison. -/
structure WeightSample where
  date : String
  weightKg : ℚ
deriving DecidableEq, Repr

instance : Inhabited WeightSample := ⟨⟨"", 0⟩⟩

/-- Formatting `delta.toFixed(1)` for the non-negative deltas interpolated into the
volume-overload reason: the number rounded to one decimal place (JavaScript
`toFixed` picks the larger candidate on ties, i.e. rounds half up). -/
def qToFixed1 (q : ℚ) : String :=
  let n : ℤ := round (q * 10)
  toString (n.toNat / 10) ++ "." ++ toString (n.toNat % 10)

/-- Reason text of rule 1. -/
def bleedingReason : String := "Bleeding symptoms reported"

/-- Reason text of rule 2. -/
def feverReason : String := "Fever reported"

/-- Reason text of rule 3. -/
def severeHEReason : String := "Severe HE concern: confusion + 0 bowel movements"

/-- Reason text of rule 4. -/
def hepaticReason : String := "Possible hepatic encephalopathy"

/-- Reason text of rule 5: `Possible volume overload: +${delta.toFixed(1)} kg`. -/
def volumeReason (delta : ℚ) : String :=
  "Possible volume overload: +" ++ (qToFixed1 delta ++ " kg")

/-- The sentinel reason appended when no rule fired. -/
def sentinelReason : String := "No concerning signals detected"

/-- Result record of `evaluateRisk`. -/
structure EvalResult where
  level : RiskLevel
  reasons : List String
deriving DecidableEq, Repr

/-- Function `evaluateRisk(checkIn, weightHistory)`: starts at green with no
reasons, applies the five rules in source order (each escalating via
`maxRisk` and appending its reason), and appends the sentinel when no
reason was collected. -/
def evaluateRisk (checkIn : NormCheckIn) (weightHistory : List WeightSample) : EvalResult :=
  let s0 : RiskLevel × List String := (.green, [])
  let s1 := if checkIn.bleeding then (maxRisk s0.1 .red, s0.2 ++ [bleedingReason]) else s0
  let s2 := if checkIn.fever then (maxRisk s1.1 .red, s1.2 ++ [feverReason]) else s1
  let s3 :=
    if checkIn.confusion ∧ checkIn.bowelMovements = 0 then
      (maxRisk s2.1 .red, s2.2 ++ [severeHEReason])
    else s2
  let s4 :=
    if (checkIn.confusion ∨ checkIn.sleepReversal ∨ checkIn.tremor) ∧
        checkIn.bowelMovements < 2 then
      (maxRisk s3.1 .yellow, s3.2 ++ [hepaticReason])
    else s3
  let s5 :=
    if 2 ≤ weightHistory.length then
      if 2 ≤ weightHistory.headI.weightKg - weightHistory.getLastI.weightKg then
        (maxRisk s4.1 .yellow,
          s4.2 ++ [volumeReason (weightHistory.headI.weightKg - weightHistory.getLastI.weightKg)])
      else s4
    else s4
  if s5.2 = [] then ⟨s5.1, [sentinelReason]⟩ else ⟨s5.1, s5.2⟩

/-- The five rules of `evaluateRisk` in source order, each as
(condition on the current inputs, level escalated to, reason appended). -/
def ruleEntries (c : NormCheckIn) (h : List WeightSample) :
    List (Bool × RiskLevel × String) :=
  [ (c.bleeding, (.red, bleedingReason)),
    (c.fever, (.red, feverReason)),
    (decide (c.confusion ∧ c.bowelMovements = 0), (.red, severeHEReason)),
    (decide ((c.confusion ∨ c.sleepReversal ∨ c.tremor) ∧ c.bowelMovements < 2),
      (.yellow, hepaticReason)),
    (decide (2 ≤ h.length) &&
        decide (2 ≤ h.headI.weightKg - h.getLastI.weightKg),
      (.yellow, volumeReason (h.headI.weightKg - h.getLastI.weightKg))) ]

/-- The rules whose condition holds on the given inputs, in source order,
with the level and reason they contribute. -/
def firedRules (c : NormCheckIn) (h : List WeightSample) : List (RiskLevel × String) :=
  ((ruleEntries c h).filter (fun r => r.1)).map (fun r => r.2)

/-- One rule step of the evaluator: escalate and append when the condition
holds, leave the state unchanged otherwise. -/
def stepEval (s : RiskLevel × List String) (r : Bool × RiskLevel × String) :
    RiskLevel × List String :=
  if r.1 then (maxRisk s.1 r.2.1, s.2 ++ [r.2.2]) else s

/-- The accumulated level after the first `k` rules of one evaluation have
been considered. -/
def levelUpTo (c : NormCheckIn) (h : List WeightSample) (k : Nat) : RiskLevel :=
  (((ruleEntries c h).take k).foldl stepEval (.green, [])).1

/-- A check-in document stored in the `checkins` collection as seen by the
weight-history query. Documents lacking a `patientId` or `date` field can
never match the query's equality and range/order conditions and so are not
modelled; `weightKg` may be absent or of any runtime type. -/
structure StoredCheckIn where
  patientId : String
  date : String
  weightKg : Option JSVal
deriving DecidableEq, Repr

/-- Test `typeof x.weightKg === "number"`. -/
def wellFormedWeight : Option JSVal → Bool
  | some (.vNum _) => true
  | _ => false

/-- The `{date, weightKg}` projection applied after the well-formedness
filter (the `as number` cast; the 0 branch is unreachable post-filter). -/
def toSample (x : StoredCheckIn) : WeightSample :=
  { date := x.date
    weightKg :=
      match x.weightKg with
      | some (.vNum q) => q
      | _ => 0 }

/-- Descending-date document order used by `orderBy("date", "desc")`. -/
def dateDesc (a b : StoredCheckIn) : Prop := b.date ≤ a.date

instance : DecidableRel dateDesc := fun a b => inferInstanceAs (Decidable (b.date ≤ a.date))

/-- Function `getRecentWeights(patientId, upToDate)` over a modelled `checkins`
collection: filter by `patientId` equality and `date <= upToDate`, order by
date descending, limit to 4, then keep documents whose `weightKg` is a
number and project to `{date, weightKg}`. -/
def getRecentWeights (docs : List StoredCheckIn) (patientId upToDate : String) :
    List WeightSample :=
  let snap :=
    (List.insertionSort dateDesc
      (docs.filter (fun x => x.patientId == patientId && decide (x.date ≤ upToDate)))).take 4
  (snap.filter (fun x => wellFormedWeight x.weightKg)).map toSample

/-- A value stored in a field of a RiskState document. -/
inductive RSVal where
  | js (v : JSVal)
  | strList (l : List String)
  | time (t : Nat)
deriving DecidableEq, Repr

/-- A RiskState document: a finite assignment of field names to values. -/
def RiskDoc := String → Option RSVal

/-- The document (possibly absent) stored per key in the `riskStates`
collection. -/
def RiskStates := JSVal → Option RiskDoc

/-- A document with no fields. -/
def emptyDoc : RiskDoc := fun _ => none

/-- Operation `set(payload, { merge: true })` on one document: fields named in the
payload take their new value, every other field keeps its stored value. -/
def mergeSet (doc : RiskDoc) (payload : List (String × RSVal)) : RiskDoc :=
  fun k =>
    match payload.lookup k with
    | some v => some v
    | none => doc k

/-- The payload of the RiskState write:
`{patientId, level, reasons, lastCheckInDate, updatedAt}`. -/
def riskPayload (pid : JSVal) (level : RiskLevel) (reasons : List String)
    (date : JSVal) (now : Nat) : List (String × RSVal) :=
  [ ("patientId", .js pid),
    ("level", .js (.vStr level.toStr)),
    ("reasons", .strList reasons),
    ("lastCheckInDate", .js date),
    ("updatedAt", .time now) ]

/-- Write `collection("riskStates").doc(patientId).set(..., { merge: true })`:
merge-upsert the document at the key, creating it when absent; all other
documents are untouched. -/
def writeRiskState (states : RiskStates) (pid : JSVal)
    (payload : List (String × RSVal)) : RiskStates :=
  fun k => if k = pid then some (mergeSet ((states pid).getD emptyDoc) payload) else states k

/-- Terminal outcome of one orchestrator invocation. -/
inductive Outcome where
  | skip
  | failure
  | success
deriving DecidableEq, Repr

/-- Trigger `onCheckInWrite`: the trigger body. `after = none` models a deletion
(`!change.after.exists`). The history read is an explicitly passed
capability `query` taking the resolved patient identifier and date and
either failing (`Except.error`, a thrown store error, which aborts the
invocation before any write) or returning the weight history. `now` is the
server timestamp taken at write time. -/
def onCheckInWrite (after : Option RawCheckIn)
    (query : JSVal → JSVal → Except Unit (List WeightSample))
    (states : RiskStates) (now : Nat) : Outcome × RiskStates :=
  match after with
  | none => (.skip, states)
  | some raw =>
    let pid := jsCoalesce raw.patientId raw.patientID
    let date := raw.date
    if truthyOpt pid = false ∨ truthyOpt date = false then (.skip, states)
    else
      let pidV := pid.getD .vNull
      let dateV := date.getD .vNull
      let c := checkInNormalized dateV raw
      match query pidV dateV with
      | .error _ => (.failure, states)
      | .ok hist =>
        let r := evaluateRisk c hist
        (.success, writeRiskState states pidV (riskPayload pidV r.level r.reasons dateV now))

lemma maxRisk_rank_left (a b : RiskLevel) : a.rank ≤ (maxRisk a b).rank := by
  cases a <;> cases b <;> decide

lemma maxRisk_rank_right (a b : RiskLevel) : b.rank ≤ (maxRisk a b).rank := by
  cases a <;> cases b <;> decide

/-- The evaluator is the fold of `stepEval` over the rule table, followed by
the sentinel fallback. -/
lemma evaluateRisk_eq (c : NormCheckIn) (h : List WeightSample) :
    evaluateRisk c h =
      (fun t : RiskLevel × List String =>
        if t.2 = [] then EvalResult.mk t.1 [sentinelReason] else EvalResult.mk t.1 t.2)
        ((ruleEntries c h).foldl stepEval (.green, [])) := by
  by_cases h1 : c.bleeding = true <;>
  by_cases h2 : c.fever = true <;>
  by_cases h3 : (c.confusion = true ∧ c.bowelMovements = 0) <;>
  by_cases h4 : ((c.confusion = true ∨ c.sleepReversal = true ∨ c.tremor = true) ∧
      c.bowelMovements < 2) <;>
  by_cases h5 : (2 ≤ h.length) <;>
  by_cases h6 : (2 ≤ h.headI.weightKg - h.getLastI.weightKg) <;>
  simp [evaluateRisk, ruleEntries, stepEval, h1, h2, h3, h4, h5, h6]

/-- Folding `stepEval` accumulates exactly the fired rules: the level is the
`maxRisk`-fold of the fired levels and the reasons are the fired reasons in
order, appended to the accumulator. -/
lemma stepEval_foldl (rs : List (Bool × RiskLevel × String)) (l : RiskLevel)
    (acc : List String) :
    rs.foldl stepEval (l, acc) =
      ((((rs.filter (fun r => r.1)).map (fun r => r.2)).map Prod.fst).foldl maxRisk l,
        acc ++ (((rs.filter (fun r => r.1)).map (fun r => r.2)).map Prod.snd)) := by
  induction rs generalizing l acc with
  | nil => simp
  | cons r rs ih =>
    by_cases hr : r.1 = true
    · simp [stepEval, hr, ih]
    · simp [stepEval, hr, ih]

/-- The final level is the `maxRisk`-fold of the fired rules' levels. -/
lemma evaluateRisk_level (c : NormCheckIn) (h : List WeightSample) :
    (evaluateRisk c h).level = ((firedRules c h).map Prod.fst).foldl maxRisk .green := by
  rw [evaluateRisk_eq, stepEval_foldl]
  dsimp only
  split <;> simp [firedRules, List.map_map]

/-- The reasons are exactly the fired rules' reasons in rule order, or the
sentinel when none fired. -/
lemma evaluateRisk_reasons (c : NormCheckIn) (h : List WeightSample) :
    (evaluateRisk c h).reasons =
      if firedRules c h = [] then [sentinelReason]
      else (firedRules c h).map Prod.snd := by
  rw [evaluateRisk_eq, stepEval_foldl]
  by_cases hz : firedRules c h = []
  · have h2 : List.filter (fun r => r.1) (ruleEntries c h) = [] := by
      simpa [firedRules] using hz
    simp [h2, firedRules, hz]
  · have h2 : List.filter (fun r => r.1) (ruleEntries c h) ≠ [] := by
      intro hcon
      exact hz (by simp [firedRules, hcon])
    simp [firedRules, hz, List.map_map, List.map_eq_nil_iff, h2]

/-- The fold start is a lower bound of the `maxRisk` fold. -/
lemma rank_le_foldl_init (l : List RiskLevel) (a : RiskLevel) :
    a.rank ≤ (l.foldl maxRisk a).rank := by
  induction l generalizing a with
  | nil => exact le_rfl
  | cons x l ih => exact le_trans (maxRisk_rank_left a x) (ih (maxRisk a x))

/-- Every member of the list is a lower bound of the `maxRisk` fold. -/
lemma rank_le_foldl_mem (l : List RiskLevel) (a b : RiskLevel) (hb : b ∈ l) :
    b.rank ≤ (l.foldl maxRisk a).rank := by
  induction l generalizing a with
  | nil => cases hb
  | cons x l ih =>
    rcases List.mem_cons.mp hb with hx | hx
    · subst hx
      exact le_trans (maxRisk_rank_right a b) (rank_le_foldl_init l (maxRisk a b))
    · exact ih (maxRisk a x) hx

/-- One more rule considered never lowers the accumulated level. -/
lemma stepEval_take_mono (rs : List (Bool × RiskLevel × String)) (k : Nat)
    (s : RiskLevel × List String) :
    (((rs.take k).foldl stepEval s).1).rank ≤ (((rs.take (k + 1)).foldl stepEval s).1).rank := by
  induction rs generalizing k s with
  | nil => simp
  | cons r rs ih =>
    cases k with
    | zero =>
      simp only [List.take_zero, List.foldl_nil, List.take_succ_cons, List.take_zero,
        List.foldl_cons]
      by_cases hr : r.1 = true
      · simpa [stepEval, hr] using maxRisk_rank_left s.1 r.2.1
      · simp [stepEval, hr]
    | succ k =>
      simpa [List.take_succ_cons] using ih k (stepEval s r)

/-- A string extending a 27-character prefix differs from any string whose
first 27 characters differ from that prefix. -/
lemma append_ne_of_take_ne (a x c : String)
    (h : c.data.take a.data.length ≠ a.data) : a ++ x ≠ c := by
  intro he
  apply h
  rw [← he, String.data_append, List.take_left]

/-- A volume-overload reason is never the bleeding reason. -/
lemma volumeReason_ne_bleeding (d : ℚ) : volumeReason d ≠ bleedingReason := by
  unfold volumeReason bleedingReason
  exact append_ne_of_take_ne _ _ _ (by decide)

/-- A volume-overload reason is never the fever reason. -/
lemma volumeReason_ne_fever (d : ℚ) : volumeReason d ≠ feverReason := by
  unfold volumeReason feverReason
  exact append_ne_of_take_ne _ _ _ (by decide)

/-- A volume-overload reason is never the severe-HE reason. -/
lemma volumeReason_ne_severeHE (d : ℚ) : volumeReason d ≠ severeHEReason := by
  unfold volumeReason severeHEReason
  exact append_ne_of_take_ne _ _ _ (by decide)

/-- A volume-overload reason is never the hepatic-encephalopathy reason. -/
lemma volumeReason_ne_hepatic (d : ℚ) : volumeReason d ≠ hepaticReason := by
  unfold volumeReason hepaticReason
  exact append_ne_of_take_ne _ _ _ (by decide)

/-- A volume-overload reason is never the sentinel reason. -/
lemma volumeReason_ne_sentinel (d : ℚ) : volumeReason d ≠ sentinelReason := by
  unfold volumeReason sentinelReason
  exact append_ne_of_take_ne _ _ _ (by decide)

/-- Which reason strings occur among the fired rules' reasons, in terms of
the five rule conditions. -/
lemma mem_firedRules_snd (c : NormCheckIn) (h : List WeightSample) (s : String) :
    s ∈ (firedRules c h).map Prod.snd ↔
      (c.bleeding = true ∧ s = bleedingReason) ∨
      (c.fever = true ∧ s = feverReason) ∨
      ((c.confusion = true ∧ c.bowelMovements = 0) ∧ s = severeHEReason) ∨
      (((c.confusion = true ∨ c.sleepReversal = true ∨ c.tremor = true) ∧
          c.bowelMovements < 2) ∧ s = hepaticReason) ∨
      ((2 ≤ h.length ∧ 2 ≤ h.headI.weightKg - h.getLastI.weightKg) ∧
          s = volumeReason (h.headI.weightKg - h.getLastI.weightKg)) := by
  by_cases h1 : c.bleeding = true <;>
  by_cases h2 : c.fever = true <;>
  by_cases h3 : (c.confusion = true ∧ c.bowelMovements = 0) <;>
  by_cases h4 : ((c.confusion = true ∨ c.sleepReversal = true ∨ c.tremor = true) ∧
      c.bowelMovements < 2) <;>
  by_cases h5 : (2 ≤ h.length) <;>
  by_cases h6 : (2 ≤ h.headI.weightKg - h.getLastI.weightKg) <;>
  simp [firedRules, ruleEntries, h1, h2, h3, h4, h5, h6]

/-- Which levels occur among the fired rules' levels, in terms of the five
rule conditions. -/
lemma mem_firedRules_fst (c : NormCheckIn) (h : List WeightSample) (l : RiskLevel) :
    l ∈ (firedRules c h).map Prod.fst ↔
      (c.bleeding = true ∧ l = .red) ∨
      (c.fever = true ∧ l = .red) ∨
      ((c.confusion = true ∧ c.bowelMovements = 0) ∧ l = .red) ∨
      (((c.confusion = true ∨ c.sleepReversal = true ∨ c.tremor = true) ∧
          c.bowelMovements < 2) ∧ l = .yellow) ∨
      ((2 ≤ h.length ∧ 2 ≤ h.headI.weightKg - h.getLastI.weightKg) ∧ l = .yellow) := by
  by_cases h1 : c.bleeding = true <;>
  by_cases h2 : c.fever = true <;>
  by_cases h3 : (c.confusion = true ∧ c.bowelMovements = 0) <;>
  by_cases h4 : ((c.confusion = true ∨ c.sleepReversal = true ∨ c.tremor = true) ∧
      c.bowelMovements < 2) <;>
  by_cases h5 : (2 ≤ h.length) <;>
  by_cases h6 : (2 ≤ h.headI.weightKg - h.getLastI.weightKg) <;>
  simp [firedRules, ruleEntries, h1, h2, h3, h4, h5, h6]

/-- The fired-rule list is empty exactly when none of the five conditions
holds. -/
lemma firedRules_eq_nil_iff (c : NormCheckIn) (h : List WeightSample) :
    firedRules c h = [] ↔
      ¬ c.bleeding = true ∧ ¬ c.fever = true ∧
      ¬ (c.confusion = true ∧ c.bowelMovements = 0) ∧
      ¬ ((c.confusion = true ∨ c.sleepReversal = true ∨ c.tremor = true) ∧
          c.bowelMovements < 2) ∧
      ¬ (2 ≤ h.length ∧ 2 ≤ h.headI.weightKg - h.getLastI.weightKg) := by
  by_cases h1 : c.bleeding = true <;>
  by_cases h2 : c.fever = true <;>
  by_cases h3 : (c.confusion = true ∧ c.bowelMovements = 0) <;>
  by_cases h4 : ((c.confusion = true ∨ c.sleepReversal = true ∨ c.tremor = true) ∧
      c.bowelMovements < 2) <;>
  by_cases h5 : (2 ≤ h.length) <;>
  by_cases h6 : (2 ≤ h.headI.weightKg - h.getLastI.weightKg) <;>
  simp [firedRules, ruleEntries, h1, h2, h3, h4, h5, h6]

/-- Membership in the returned reasons: the sentinel when nothing fired,
otherwise exactly the fired reasons. -/
lemma mem_reasons_iff (c : NormCheckIn) (h : List WeightSample) (s : String) :
    s ∈ (evaluateRisk c h).reasons ↔
      (firedRules c h = [] ∧ s = sentinelReason) ∨ s ∈ (firedRules c h).map Prod.snd := by
  rw [evaluateRisk_reasons]
  by_cases hf : firedRules c h = [] <;> simp [hf]

/-- Example normalized check-in with no symptoms (spec Scenario A). -/
def cScenarioA : NormCheckIn :=
  ⟨.vStr "2025-01-01", false, false, false, 3, some 75, false, false, ⟨false, false, false⟩⟩

/-- Example normalized check-in: confusion with one bowel movement. -/
def cNeuroOneBM : NormCheckIn :=
  ⟨.vStr "2025-01-01", true, false, false, 1, none, false, false, ⟨false, false, false⟩⟩

/-- Example normalized check-in: confusion with two bowel movements. -/
def cNeuroTwoBM : NormCheckIn :=
  ⟨.vStr "2025-01-01", true, false, false, 2, none, false, false, ⟨false, false, false⟩⟩

/-- C1: for every normalized check-in and weight history of length at most
4, the evaluator returns a level among green, yellow, red and a non-empty
reasons list; when no rule fired the reasons are exactly the sentinel and
the level is green. -/
theorem C1_evaluateRisk_total (c : NormCheckIn) (h : List WeightSample)
    (hlen : h.length ≤ 4) :
    ((evaluateRisk c h).level = .green ∨ (evaluateRisk c h).level = .yellow ∨
      (evaluateRisk c h).level = .red) ∧
    (evaluateRisk c h).reasons ≠ [] ∧
    (firedRules c h = [] →
      (evaluateRisk c h).reasons = [sentinelReason] ∧ (evaluateRisk c h).level = .green) := by
  refine ⟨?_, ?_, ?_⟩
  · cases hl : (evaluateRisk c h).level <;> simp
  · rw [evaluateRisk_reasons]
    by_cases hf : firedRules c h = [] <;> simp [hf]
  · intro hf
    constructor
    · rw [evaluateRisk_reasons, if_pos hf]
    · rw [evaluateRisk_level, hf]
      rfl

/-- C1 witness at Scenario A with empty history. -/
theorem C1_witness :
    (evaluateRisk cScenarioA []).reasons ≠ [] :=
  (C1_evaluateRisk_total cScenarioA [] (by decide)).2.1

/-- C2: the final level is the `maxRisk` fold (the maximum over the
severity order) of the levels of the fired rules, green when none fired; it
bounds every fired rule's level from above, never decreases as the rules
are considered in order, and the reasons are exactly the fired rules'
reasons in rule order 1-5 whenever any rule fired. -/
theorem C2_level_max_monotone (c : NormCheckIn) (h : List WeightSample) :
    (evaluateRisk c h).level = ((firedRules c h).map Prod.fst).foldl maxRisk .green ∧
    (∀ p ∈ firedRules c h, (p.1).rank ≤ ((evaluateRisk c h).level).rank) ∧
    (firedRules c h = [] → (evaluateRisk c h).level = .green) ∧
    (∀ k : Nat, (levelUpTo c h k).rank ≤ (levelUpTo c h (k + 1)).rank) ∧
    (firedRules c h ≠ [] →
      (evaluateRisk c h).reasons = (firedRules c h).map Prod.snd) := by
  refine ⟨evaluateRisk_level c h, ?_, ?_, ?_, ?_⟩
  · intro p hp
    rw [evaluateRisk_level]
    exact rank_le_foldl_mem _ _ _ (List.mem_map_of_mem Prod.fst hp)
  · intro hf
    rw [evaluateRisk_level, hf]
    rfl
  · intro k
    exact stepEval_take_mono (ruleEntries c h) k (.green, [])
  · intro hf
    rw [evaluateRisk_reasons, if_neg hf]

/-- C4: rule 4 fires exactly when a neuro flag is set and bowel movements
are strictly below 2; then the hepatic-encephalopathy reason is present and
the level is at least yellow. At the boundary, two bowel movements never
fire the rule and one bowel movement with a neuro flag always does. -/
theorem C4_rule4_boundary (c : NormCheckIn) (h : List WeightSample) :
    (hepaticReason ∈ (evaluateRisk c h).reasons ↔
      ((c.confusion = true ∨ c.sleepReversal = true ∨ c.tremor = true) ∧
        c.bowelMovements < 2)) ∧
    (((c.confusion = true ∨ c.sleepReversal = true ∨ c.tremor = true) ∧
        c.bowelMovements < 2) →
      RiskLevel.yellow.rank ≤ ((evaluateRisk c h).level).rank) ∧
    (c.bowelMovements = 2 → hepaticReason ∉ (evaluateRisk c h).reasons) ∧
    (((c.confusion = true ∨ c.sleepReversal = true ∨ c.tremor = true) ∧
        c.bowelMovements = 1) → hepaticReason ∈ (evaluateRisk c h).reasons) := by
  have hv : hepaticReason ≠ volumeReason (h.headI.weightKg - h.getLastI.weightKg) :=
    Ne.symm (volumeReason_ne_hepatic _)
  have hmem : hepaticReason ∈ (evaluateRisk c h).reasons ↔
      ((c.confusion = true ∨ c.sleepReversal = true ∨ c.tremor = true) ∧
        c.bowelMovements < 2) := by
    rw [mem_reasons_iff, mem_firedRules_snd]
    have w1 : hepaticReason ≠ sentinelReason := by decide
    have w2 : hepaticReason ≠ bleedingReason := by decide
    have w3 : hepaticReason ≠ feverReason := by decide
    have w4 : hepaticReason ≠ severeHEReason := by decide
    simp [w1, w2, w3, w4, hv]
  refine ⟨hmem, ?_, ?_, ?_⟩
  · intro hc
    rw [evaluateRisk_level]
    refine rank_le_foldl_mem _ _ _ ?_
    exact (mem_firedRules_fst c h .yellow).mpr (Or.inr (Or.inr (Or.inr (Or.inl ⟨hc, rfl⟩))))
  · intro hbm
    rw [hmem]
    rintro ⟨-, hlt⟩
    rw [hbm] at hlt
    exact lt_irrefl _ hlt
  · rintro ⟨hn, hbm⟩
    rw [hmem]
    exact ⟨hn, by rw [hbm]; norm_num⟩

/-- A volume-overload reason occurs in the output exactly when the
weight-trend rule fired: at least two samples and a window delta of at
least 2 kg. -/
lemma volume_mem_iff (c : NormCheckIn) (h : List WeightSample) :
    (∃ d : ℚ, volumeReason d ∈ (evaluateRisk c h).reasons) ↔
      (2 ≤ h.length ∧ 2 ≤ h.headI.weightKg - h.getLastI.weightKg) := by
  constructor
  · rintro ⟨d, hd⟩
    rw [mem_reasons_iff, mem_firedRules_snd] at hd
    rcases hd with ⟨-, hs⟩ | ⟨-, hs⟩ | ⟨-, hs⟩ | ⟨-, hs⟩ | ⟨-, hs⟩ | ⟨hc, -⟩
    · exact absurd hs (volumeReason_ne_sentinel d)
    · exact absurd hs (volumeReason_ne_bleeding d)
    · exact absurd hs (volumeReason_ne_fever d)
    · exact absurd hs (volumeReason_ne_severeHE d)
    · exact absurd hs (volumeReason_ne_hepatic d)
    · exact hc
  · intro hc
    refine ⟨h.headI.weightKg - h.getLastI.weightKg, ?_⟩
    rw [mem_reasons_iff, mem_firedRules_snd]
    exact Or.inr (Or.inr (Or.inr (Or.inr (Or.inr ⟨hc, rfl⟩))))

/-- Two-sample history whose window delta is exactly 2.0 kg. -/
def histDelta20 : List WeightSample := [⟨"2025-01-02", 80⟩, ⟨"2025-01-01", 78⟩]

/-- Two-sample history whose window delta is exactly 1.9 kg. -/
def histDelta19 : List WeightSample := [⟨"2025-01-02", 80⟩, ⟨"2025-01-01", 781 / 10⟩]

/-- C3: the volume-overload reason appears exactly when the history has at
least 2 entries and the newest-minus-oldest delta is at least 2 kg
(inclusively: a delta of exactly 2.0 triggers, 1.9 does not); when it
appears the level is at least yellow and the text carries the delta rounded
to one decimal place behind a leading plus sign; with fewer than 2 entries
it never appears. -/
theorem C3_volume_rule (c : NormCheckIn) (h : List WeightSample) :
    ((∃ d : ℚ, volumeReason d ∈ (evaluateRisk c h).reasons) ↔
      (2 ≤ h.length ∧ 2 ≤ h.headI.weightKg - h.getLastI.weightKg)) ∧
    ((2 ≤ h.length ∧ 2 ≤ h.headI.weightKg - h.getLastI.weightKg) →
      volumeReason (h.headI.weightKg - h.getLastI.weightKg) ∈ (evaluateRisk c h).reasons ∧
      RiskLevel.yellow.rank ≤ ((evaluateRisk c h).level).rank ∧
      volumeReason (h.headI.weightKg - h.getLastI.weightKg) =
        "Possible volume overload: +" ++
          (qToFixed1 (h.headI.weightKg - h.getLastI.weightKg) ++ " kg")) ∧
    (h.length < 2 → ∀ d : ℚ, volumeReason d ∉ (evaluateRisk c h).reasons) ∧
    (∃ d : ℚ, volumeReason d ∈ (evaluateRisk cScenarioA histDelta20).reasons) ∧
    (∀ d : ℚ, volumeReason d ∉ (evaluateRisk cScenarioA histDelta19).reasons) := by
  refine ⟨volume_mem_iff c h, ?_, ?_, ?_, ?_⟩
  · intro hc
    refine ⟨?_, ?_, rfl⟩
    · rw [mem_reasons_iff, mem_firedRules_snd]
      exact Or.inr (Or.inr (Or.inr (Or.inr (Or.inr ⟨hc, rfl⟩))))
    · rw [evaluateRisk_level]
      refine rank_le_foldl_mem _ _ _ ?_
      exact (mem_firedRules_fst c h .yellow).mpr (Or.inr (Or.inr (Or.inr (Or.inr ⟨hc, rfl⟩))))
  · intro hlen d hd
    rcases (volume_mem_iff c h).mp ⟨d, hd⟩ with ⟨h2, -⟩
    exact absurd h2 (by omega)
  · refine (volume_mem_iff cScenarioA histDelta20).mpr ⟨by decide, ?_⟩
    norm_num [histDelta20, List.headI, List.getLastI]
  · intro d hd
    rcases (volume_mem_iff cScenarioA histDelta19).mp ⟨d, hd⟩ with ⟨-, h2⟩
    norm_num [histDelta19, List.headI, List.getLastI] at h2

/-- The inclusion of a normalized check-in back into a raw record, exactly
as its JavaScript object would come back from the store: booleans stay
booleans, the bowel-movement count is a number, a measured weight is a
number and an unmeasured one is null. -/
def embedNorm (c : NormCheckIn) : RawCheckIn :=
  { patientId := none
    patientID := none
    date := some c.date
    confusion := some (.vBool c.confusion)
    sleepReversal := some (.vBool c.sleepReversal)
    tremor := some (.vBool c.tremor)
    bowelMovements := some (.vNum c.bowelMovements)
    weightKg :=
      match c.weightKg with
      | some q => some (.vNum q)
      | none => some .vNull
    bleeding := some (.vBool c.bleeding)
    fever := some (.vBool c.fever)
    medsTaken := some ⟨some (.vBool c.medsTaken.lactulose),
      some (.vBool c.medsTaken.rifaximin), some (.vBool c.medsTaken.diuretics)⟩ }

/-- Normalizing the record produced by an already-normalized check-in
changes nothing. -/
lemma normalize_embed (c : NormCheckIn) : checkInNormalized c.date (embedNorm c) = c := by
  cases c with
  | mk date confusion sleepReversal tremor bm w bleeding fever meds =>
    cases meds
    cases w <;>
      simp [checkInNormalized, embedNorm, coerceMeds, truthyOpt, JSVal.truthy]

/-- C9: normalization is a fixed point on its own outputs — re-normalizing
the stored form of a normalized check-in yields the same check-in. -/
theorem C9_normalize_fixed_point (d : JSVal) (raw : RawCheckIn) :
    checkInNormalized (checkInNormalized d raw).date (embedNorm (checkInNormalized d raw)) =
      checkInNormalized d raw :=
  normalize_embed (checkInNormalized d raw)

/-- Raw record carrying a negative bowel-movement count and a negative
weight, both of which `typeof === "number"` lets through. -/
def rawC6 : RawCheckIn :=
  { bowelMovements := some (.vNum (-1)), weightKg := some (.vNum (-5)) }

/-- C6 counterexample: normalization does not confine the numeric fields to
the spec's domains — a negative number passes through `bowelMovements`
(claimed to be a non-negative integer) and a negative number passes through
`weightKg` (claimed to be null or positive). -/
theorem C6_counterexample :
    (checkInNormalized .vNull rawC6).bowelMovements < 0 ∧
    (checkInNormalized .vNull rawC6).weightKg = some (-5) ∧ ((-5 : ℚ) < 0) := by
  refine ⟨?_, rfl, by norm_num⟩
  show (-1 : ℚ) < 0
  norm_num

/-- C6 amended: normalization coerces an absent or non-number
`bowelMovements` to 0 and an absent or non-number `weightKg` to null, and
passes any number (including negative or fractional ones) through
unchanged. -/
theorem C6_numeric_coercion (d : JSVal) (raw : RawCheckIn) :
    (∀ q : ℚ, raw.bowelMovements = some (.vNum q) →
      (checkInNormalized d raw).bowelMovements = q) ∧
    ((∀ q : ℚ, raw.bowelMovements ≠ some (.vNum q)) →
      (checkInNormalized d raw).bowelMovements = 0) ∧
    (∀ q : ℚ, raw.weightKg = some (.vNum q) →
      (checkInNormalized d raw).weightKg = some q) ∧
    ((∀ q : ℚ, raw.weightKg ≠ some (.vNum q)) →
      (checkInNormalized d raw).weightKg = none) := by
  refine ⟨?_, ?_, ?_, ?_⟩
  · intro q hq
    simp [checkInNormalized, hq]
  · intro hq
    rcases hbm : raw.bowelMovements with - | v
    · simp [checkInNormalized, hbm]
    · cases v with
      | vNum q => exact absurd hbm (hq q)
      | vBool b => simp [checkInNormalized, hbm]
      | vStr s => simp [checkInNormalized, hbm]
      | vNull => simp [checkInNormalized, hbm]
  · intro q hq
    simp [checkInNormalized, hq]
  · intro hq
    rcases hw : raw.weightKg with - | v
    · simp [checkInNormalized, hw]
    · cases v with
      | vNum q => exact absurd hw (hq q)
      | vBool b => simp [checkInNormalized, hw]
      | vStr s => simp [checkInNormalized, hw]
      | vNull => simp [checkInNormalized, hw]

/-- C10: a present-but-empty primary `patientId` leads to Skip, even when
the legacy `patientID` field holds a non-empty identifier: the nullish
fallback is not taken for the empty string, and the falsy resolved
identifier aborts before any read or write. -/
theorem C10_empty_primary_id_skips (raw : RawCheckIn)
    (query query2 : JSVal → JSVal → Except Unit (List WeightSample))
    (states : RiskStates) (now : Nat)
    (hp : raw.patientId = some (.vStr "")) :
    onCheckInWrite (some raw) query states now = (.skip, states) ∧
    jsCoalesce raw.patientId raw.patientID = some (.vStr "") ∧
    onCheckInWrite (some raw) query states now = onCheckInWrite (some raw) query2 states now ∧
    (∀ b : Option JSVal, jsCoalesce none b = b) ∧
    (∀ b : Option JSVal, jsCoalesce (some .vNull) b = b) := by
  have hcoal : jsCoalesce raw.patientId raw.patientID = some (.vStr "") := by
    simp [jsCoalesce, hp]
  have hskip : ∀ q : JSVal → JSVal → Except Unit (List WeightSample),
      onCheckInWrite (some raw) q states now = (.skip, states) := by
    intro q
    simp [onCheckInWrite, hcoal, truthyOpt, JSVal.truthy]
  exact ⟨hskip query, hcoal, (hskip query).trans (hskip query2).symm,
    fun b => rfl, fun b => rfl⟩

/-- Raw record with an empty primary identifier and a populated legacy
identifier. -/
def rawC10 : RawCheckIn :=
  { patientId := some (.vStr ""), patientID := some (.vStr "P1"),
    date := some (.vStr "2025-01-01") }

/-- An always-succeeding history query returning no samples. -/
def queryEmptyOk : JSVal → JSVal → Except Unit (List WeightSample) := fun _ _ => .ok []

/-- An always-failing history query. -/
def queryFails : JSVal → JSVal → Except Unit (List WeightSample) := fun _ _ => .error ()

/-- An empty risk-state store. -/
def statesEmpty : RiskStates := fun _ => none

/-- C10 witness: the concrete malformed record is skipped and the store is
untouched. -/
theorem C10_witness :
    onCheckInWrite (some rawC10) queryEmptyOk statesEmpty 0 = (.skip, statesEmpty) :=
  (C10_empty_primary_id_skips rawC10 queryEmptyOk queryFails statesEmpty 0 rfl).1

/-- C5: the orchestrator mutates the risk-state store only on the full
success path. Deletions and records without a usable identifier or date are
skipped without consulting the history query or the store, and a failed
history query leaves the previously stored risk state intact. -/
theorem C5_no_partial_write (after : Option RawCheckIn)
    (query query2 : JSVal → JSVal → Except Unit (List WeightSample))
    (states : RiskStates) (now : Nat) :
    ((onCheckInWrite after query states now).1 ≠ .success →
      (onCheckInWrite after query states now).2 = states) ∧
    onCheckInWrite none query states now = (.skip, states) ∧
    (∀ raw, after = some raw →
      (truthyOpt (jsCoalesce raw.patientId raw.patientID) = false ∨
        truthyOpt raw.date = false) →
      onCheckInWrite after query states now = (.skip, states) ∧
      onCheckInWrite after query states now = onCheckInWrite after query2 states now) ∧
    (∀ raw, after = some raw →
      query ((jsCoalesce raw.patientId raw.patientID).getD .vNull)
          (raw.date.getD .vNull) = .error () →
      (onCheckInWrite after query states now).1 ≠ .success ∧
      (onCheckInWrite after query states now).2 = states) := by
  refine ⟨?_, rfl, ?_, ?_⟩
  · intro hne
    cases after with
    | none => rfl
    | some raw =>
      by_cases hg : (truthyOpt (jsCoalesce raw.patientId raw.patientID) = false ∨
          truthyOpt raw.date = false)
      · simp [onCheckInWrite, hg]
      · rcases hq : query ((jsCoalesce raw.patientId raw.patientID).getD .vNull)
            (raw.date.getD .vNull) with e | hist
        · simp [onCheckInWrite, hg, hq]
        · exact absurd (by simp [onCheckInWrite, hg, hq]) hne
  · rintro raw rfl hg
    constructor
    · simp [onCheckInWrite, hg]
    · simp [onCheckInWrite, hg]
  · rintro raw rfl hq
    by_cases hg : (truthyOpt (jsCoalesce raw.patientId raw.patientID) = false ∨
        truthyOpt raw.date = false)
    · constructor
      · simp [onCheckInWrite, hg]
      · simp [onCheckInWrite, hg]
    · constructor
      · simp [onCheckInWrite, hg, hq]
      · simp [onCheckInWrite, hg, hq]

/-- The field names written by the RiskState writer. -/
def riskFieldNames : List String :=
  ["patientId", "level", "reasons", "lastCheckInDate", "updatedAt"]

/-- Looking up any other field name in the write payload finds nothing. -/
lemma lookup_riskPayload_other (pid : JSVal) (level : RiskLevel) (reasons : List String)
    (date : JSVal) (now : Nat) (k : String) (hk : k ∉ riskFieldNames) :
    (riskPayload pid level reasons date now).lookup k = none := by
  simp only [riskFieldNames, List.mem_cons, List.not_mem_nil, or_false, not_or] at hk
  obtain ⟨h1, h2, h3, h4, h5⟩ := hk
  have e1 : (k == "patientId") = false := beq_eq_false_iff_ne.mpr h1
  have e2 : (k == "level") = false := beq_eq_false_iff_ne.mpr h2
  have e3 : (k == "reasons") = false := beq_eq_false_iff_ne.mpr h3
  have e4 : (k == "lastCheckInDate") = false := beq_eq_false_iff_ne.mpr h4
  have e5 : (k == "updatedAt") = false := beq_eq_false_iff_ne.mpr h5
  simp [riskPayload, List.lookup, e1, e2, e3, e4, e5]

/-- C8: on a successful run the orchestrator merge-writes exactly the five
payload fields on the document keyed by the resolved patient identifier —
every other field of that document, and every other document, is left
unchanged. -/
theorem C8_merge_semantics (raw : RawCheckIn)
    (query : JSVal → JSVal → Except Unit (List WeightSample))
    (states : RiskStates) (now : Nat) (hist : List WeightSample)
    (hg1 : truthyOpt (jsCoalesce raw.patientId raw.patientID) = true)
    (hg2 : truthyOpt raw.date = true)
    (hq : query ((jsCoalesce raw.patientId raw.patientID).getD .vNull)
        (raw.date.getD .vNull) = .ok hist) :
    (onCheckInWrite (some raw) query states now).1 = .success ∧
    ((onCheckInWrite (some raw) query states now).2
        ((jsCoalesce raw.patientId raw.patientID).getD .vNull)).getD emptyDoc "patientId" =
      some (.js ((jsCoalesce raw.patientId raw.patientID).getD .vNull)) ∧
    ((onCheckInWrite (some raw) query states now).2
        ((jsCoalesce raw.patientId raw.patientID).getD .vNull)).getD emptyDoc "level" =
      some (.js (.vStr
        (evaluateRisk (checkInNormalized (raw.date.getD .vNull) raw) hist).level.toStr)) ∧
    ((onCheckInWrite (some raw) query states now).2
        ((jsCoalesce raw.patientId raw.patientID).getD .vNull)).getD emptyDoc "reasons" =
      some (.strList
        (evaluateRisk (checkInNormalized (raw.date.getD .vNull) raw) hist).reasons) ∧
    ((onCheckInWrite (some raw) query states now).2
        ((jsCoalesce raw.patientId raw.patientID).getD .vNull)).getD emptyDoc "lastCheckInDate" =
      some (.js (raw.date.getD .vNull)) ∧
    ((onCheckInWrite (some raw) query states now).2
        ((jsCoalesce raw.patientId raw.patientID).getD .vNull)).getD emptyDoc "updatedAt" =
      some (.time now) ∧
    (∀ k : String, k ∉ riskFieldNames →
      ((onCheckInWrite (some raw) query states now).2
          ((jsCoalesce raw.patientId raw.patientID).getD .vNull)).getD emptyDoc k =
        (states ((jsCoalesce raw.patientId raw.patientID).getD .vNull)).getD emptyDoc k) ∧
    (∀ key : JSVal, key ≠ ((jsCoalesce raw.patientId raw.patientID).getD .vNull) →
      (onCheckInWrite (some raw) query states now).2 key = states key) := by
  have hg : ¬ (truthyOpt (jsCoalesce raw.patientId raw.patientID) = false ∨
      truthyOpt raw.date = false) := by
    simp [hg1, hg2]
  have hrun : onCheckInWrite (some raw) query states now =
      (.success,
        writeRiskState states ((jsCoalesce raw.patientId raw.patientID).getD .vNull)
          (riskPayload ((jsCoalesce raw.patientId raw.patientID).getD .vNull)
            (evaluateRisk (checkInNormalized (raw.date.getD .vNull) raw) hist).level
            (evaluateRisk (checkInNormalized (raw.date.getD .vNull) raw) hist).reasons
            (raw.date.getD .vNull) now)) := by
    simp [onCheckInWrite, hg, hq]
  rw [hrun]
  refine ⟨rfl, ?_, ?_, ?_, ?_, ?_, ?_, ?_⟩
  · simp [writeRiskState, mergeSet, riskPayload, List.lookup]
  · simp [writeRiskState, mergeSet, riskPayload, List.lookup]
  · simp [writeRiskState, mergeSet, riskPayload, List.lookup]
  · simp [writeRiskState, mergeSet, riskPayload, List.lookup]
  · simp [writeRiskState, mergeSet, riskPayload, List.lookup]
  · intro k hk
    simp only [writeRiskState, if_pos rfl, Option.getD_some]
    show mergeSet _ _ k = _
    unfold mergeSet
    rw [lookup_riskPayload_other _ _ _ _ _ _ hk]
  · intro key hkey
    simp [writeRiskState, hkey]

/-- Raw record with a usable identifier and date. -/
def rawOk : RawCheckIn :=
  { patientId := some (.vStr "p1"), date := some (.vStr "2025-01-02"),
    bowelMovements := some (.vNum 3) }

/-- C8 witness: the concrete successful run stamps the write time on the
stored document. -/
theorem C8_witness :
    ((onCheckInWrite (some rawOk) queryEmptyOk statesEmpty 7).2
        ((jsCoalesce rawOk.patientId rawOk.patientID).getD .vNull)).getD emptyDoc "updatedAt" =
      some (.time 7) :=
  (C8_merge_semantics rawOk queryEmptyOk statesEmpty 7 [] (by decide) (by decide)
    rfl).2.2.2.2.2.1

instance : IsTotal StoredCheckIn dateDesc :=
  ⟨fun a b => le_total b.date a.date⟩

instance : IsTrans StoredCheckIn dateDesc :=
  ⟨fun _ _ _ hab hbc => le_trans hbc hab⟩

/-- The spec's description of the history query, stated in its own words:
take the at most 4 most recent check-ins of the patient with date up to the
reference date in descending date order, keep those whose weight is a
well-formed number, and project to `{date, weightKg}`. -/
def recentWeightsSpec (docs : List StoredCheckIn) (pid ref : String) : List WeightSample :=
  let window :=
    (List.insertionSort dateDesc
      (docs.filter (fun x => x.patientId == pid && decide (x.date ≤ ref)))).take 4
  (window.filter (fun x => wellFormedWeight x.weightKg)).map toSample

/-- C7: the query returns at most 4 samples, newest first (descending
dates), each the projection of a stored check-in of that patient with a
numeric weight and date at most the reference date, and it equals the
spec's description of the window verbatim. -/
theorem C7_history_query (docs : List StoredCheckIn) (pid ref : String) :
    (getRecentWeights docs pid ref).length ≤ 4 ∧
    List.Pairwise (fun a b : WeightSample => b.date ≤ a.date)
      (getRecentWeights docs pid ref) ∧
    (∀ s ∈ getRecentWeights docs pid ref, ∃ x ∈ docs,
      x.patientId = pid ∧ x.date ≤ ref ∧ x.weightKg = some (.vNum s.weightKg) ∧
      s.date = x.date) ∧
    getRecentWeights docs pid ref = recentWeightsSpec docs pid ref := by
  refine ⟨?_, ?_, ?_, rfl⟩
  · unfold getRecentWeights
    rw [List.length_map]
    exact le_trans (List.length_filter_le _ _) (List.length_take_le _ _)
  · unfold getRecentWeights
    have hsorted : List.Pairwise dateDesc
        (List.insertionSort dateDesc
          (docs.filter (fun x => x.patientId == pid && decide (x.date ≤ ref)))) :=
      List.sorted_insertionSort dateDesc _
    have htake := hsorted.sublist (List.take_sublist 4 _)
    have hfilter : List.Pairwise dateDesc
        (((List.insertionSort dateDesc
          (docs.filter (fun x => x.patientId == pid && decide (x.date ≤ ref)))).take 4).filter
          (fun x => wellFormedWeight x.weightKg)) :=
      htake.sublist (List.filter_sublist _)
    exact hfilter.map toSample (fun a b hab => hab)
  · intro s hs
    unfold getRecentWeights at hs
    rcases List.mem_map.mp hs with ⟨x, hxmem, hxs⟩
    rcases List.mem_filter.mp hxmem with ⟨hxtake, hxwf⟩
    have hxsort := List.take_subset 4 _ hxtake
    have hxfil : x ∈ docs.filter (fun x => x.patientId == pid && decide (x.date ≤ ref)) :=
      (List.mem_insertionSort dateDesc).mp hxsort
    rcases List.mem_filter.mp hxfil with ⟨hxdocs, hxcond⟩
    rcases (Bool.and_eq_true _ _).mp hxcond with ⟨hxp, hxd⟩
    refine ⟨x, hxdocs, by simpa using hxp, by simpa using hxd, ?_, ?_⟩
    · rcases hw : x.weightKg with - | v
      · rw [hw] at hxwf
        simp [wellFormedWeight] at hxwf
      · cases v with
        | vNum q =>
          rw [← hxs]
          simp [toSample, hw]
        | vBool b => rw [hw] at hxwf; simp [wellFormedWeight] at hxwf
        | vStr t => rw [hw] at hxwf; simp [wellFormedWeight] at hxwf
        | vNull => rw [hw] at hxwf; simp [wellFormedWeight] at hxwf
    · rw [← hxs]
      rfl

end TIPS
